import Mathlib

/-!
Verification of the homework-status notifier (`homework.py`) against its
specification.  The Python runtime values and exception objects that the
program manipulates are embedded shallowly: decoded JSON payloads become the
inductive type `Py`, exceptions become `PyErr`, fallible Python expressions
become `Except PyErr` computations, and one iteration of the polling loop in
`main` becomes the pure function `cycle` over an explicit `PollState`.
-/

namespace HomeworkBot

/-- A Python runtime value as produced by `response.json()` (and the literals
the program compares against).  JSON `null` decodes to Python `None`, which is
the `Py.none` constructor. -/
inductive Py where
  | none : Py
  | bool : Bool → Py
  | int : Int → Py
  | str : String → Py
  | list : List Py → Py
  | dict : List (String × Py) → Py
deriving Repr

mutual

/-- Python structural equality `a == b` on decoded JSON values.  (Python's
numeric cross-type equalities such as `True == 1` cannot arise between the
values the program actually compares: statuses and error strings.) -/
def Py.beq : Py → Py → Bool
  | .none, .none => true
  | .bool a, .bool b => a == b
  | .int a, .int b => a == b
  | .str a, .str b => a == b
  | .list xs, .list ys => Py.beqList xs ys
  | .dict xs, .dict ys => Py.beqFields xs ys
  | _, _ => false

/-- Elementwise `Py.beq` on lists. -/
def Py.beqList : List Py → List Py → Bool
  | [], [] => true
  | a :: as, b :: bs => Py.beq a b && Py.beqList as bs
  | _, _ => false

/-- Elementwise `Py.beq` on dict entries. -/
def Py.beqFields : List (String × Py) → List (String × Py) → Bool
  | [], [] => true
  | (k, v) :: as, (k2, v2) :: bs => k == k2 && Py.beq v v2 && Py.beqFields as bs
  | _, _ => false

end

/-- A Python exception object in play in `homework.py`: the builtin exception
classes the code raises or catches, and the classes of the project's
`exceptions` module.

Modelled from the spec: the `exceptions` module itself is not among the source
files; following the spec's error taxonomy (§7), `MissingRequiredTokenException`
(the spec's `MissingCredentialError`), `IncorrectAPIResponseException` and
`CheckResponseException` (the spec's `ShapeError`) are distinct classes deriving
from Python's `Exception`, none an alias or ancestor of another. -/
inductive PyErr where
  | keyError : String → PyErr
  | typeError : String → PyErr
  | valueError : String → PyErr
  | attributeError : String → PyErr
  | indexError : String → PyErr
  | plainExc : String → PyErr
  | checkResponseException : String → PyErr
  | incorrectAPIResponseException : String → PyErr
  | missingRequiredTokenException : String → PyErr
  | telegramError : String → PyErr
deriving DecidableEq, Repr

/-- Python's `str()` of an exception object.  `str(KeyError(m))` quotes the
argument; every other class in play renders its message verbatim. -/
def PyErr.str : PyErr → String
  | .keyError m => "'" ++ m ++ "'"
  | .typeError m => m
  | .valueError m => m
  | .attributeError m => m
  | .indexError m => m
  | .plainExc m => m
  | .checkResponseException m => m
  | .incorrectAPIResponseException m => m
  | .missingRequiredTokenException m => m
  | .telegramError m => m

/-- Whether `except exceptions.IncorrectAPIResponseException` matches the
exception (instances of other classes, including plain `Exception`, do not). -/
def PyErr.isIncorrectAPI : PyErr → Bool
  | .incorrectAPIResponseException _ => true
  | _ => false

/-- Python's `str()` of a runtime value, as used by f-string interpolation.
The rendering of container values is abbreviated; no program path compared in
this development interpolates a container. -/
def pyStr : Py → String
  | .none => "None"
  | .bool true => "True"
  | .bool false => "False"
  | .int n => toString n
  | .str s => s
  | .list _ => "<list>"
  | .dict _ => "<dict>"

/-- Python `len(v)`: defined for strings, lists and dicts, a `TypeError`
otherwise. -/
def pyLen : Py → Except PyErr Nat
  | .str s => .ok s.length
  | .list xs => .ok xs.length
  | .dict fields => .ok fields.length
  | _ => .error (.typeError "object has no len")

/-- Python subscription `v[k]` with a string key: dict lookup raising
`KeyError k` on a missing key; any non-dict value raises `TypeError`. -/
def getItem : Py → String → Except PyErr Py
  | .dict fields, k =>
      match fields.lookup k with
      | some v => .ok v
      | Option.none => .error (.keyError k)
  | _, _ => .error (.typeError "object is not subscriptable with str key")

/-- Python `v.get(k)` on a value: dicts return the stored value or `None`;
non-dict values have no `get` attribute and raise `AttributeError`. -/
def pyGet : Py → String → Except PyErr Py
  | .dict fields, k => .ok ((fields.lookup k).getD Py.none)
  | _, _ => .error (.attributeError "object has no attribute get")

/-- Whether the character list `needle` matches at the head of `hay`. -/
def subAt : List Char → List Char → Bool
  | [], _ => true
  | _ :: _, [] => false
  | n :: ns, h :: hs => decide (n = h) && subAt ns hs

/-- Whether the character list `needle` occurs somewhere inside `hay`. -/
def hasSubList (needle : List Char) : List Char → Bool
  | [] => needle.isEmpty
  | h :: hs => subAt needle (h :: hs) || hasSubList needle hs

/-- Python's substring test `needle in hay` on strings. -/
def strHasSub (hay needle : String) : Bool := hasSubList needle.data hay.data

/-- Python membership `k in v` for a string needle `k`: key membership for
dicts, element membership for lists, substring for strings, `TypeError` for
non-iterable values. -/
def pyContains : Py → String → Except PyErr Bool
  | .dict fields, k => .ok ((fields.lookup k).isSome)
  | .list xs, k => .ok (xs.any (fun x => Py.beq x (Py.str k)))
  | .str s, k => .ok (strHasSub s k)
  | _, _ => .error (.typeError "argument is not iterable")

mutual

theorem Py.beq_refl : (a : Py) → Py.beq a a = true
  | .none => rfl
  | .bool a => by simp [Py.beq]
  | .int a => by simp [Py.beq]
  | .str a => by simp [Py.beq]
  | .list xs => by simp [Py.beq, Py.beqList_refl xs]
  | .dict xs => by simp [Py.beq, Py.beqFields_refl xs]

theorem Py.beqList_refl : (xs : List Py) → Py.beqList xs xs = true
  | [] => rfl
  | a :: as => by simp [Py.beqList, Py.beq_refl a, Py.beqList_refl as]

theorem Py.beqFields_refl : (xs : List (String × Py)) → Py.beqFields xs xs = true
  | [] => rfl
  | (k, v) :: as => by simp [Py.beqFields, Py.beq_refl v, Py.beqFields_refl as]

end

/-- The observable outcome of the single `requests.get` call of a poll cycle,
abstracting the external HTTP endpoint: either the request itself raises, or a
response arrives with a status code and a body (`Option.none` when the body is
not valid JSON, `some` the decoded value otherwise). -/
inductive HttpOutcome where
  | sendFailure : String → HttpOutcome
  | response : Nat → Option Py → HttpOutcome
deriving Repr

/-- `get_api_answer` of `homework.py`: on a request exception re-raises a plain
`Exception` with the request error interpolated; on a status code other than
200 raises a plain `Exception` naming the code; on a body that fails to parse
as JSON raises `ValueError`; otherwise returns the decoded body. -/
def get_api_answer (o : HttpOutcome) : Except PyErr Py :=
  match o with
  | .sendFailure errText =>
      .error (.plainExc ("Ошибка при запросе к основному API: " ++ errText))
  | .response status_code body =>
      if status_code ≠ 200 then
        .error (.plainExc ("Ошибка " ++ toString status_code))
      else
        match body with
        | some decoded => .ok decoded
        | Option.none => .error (.valueError "Ошибка парсинга ответа из формата json")

/-- `check_response` of `homework.py`: `response['homeworks']` with only
`KeyError` caught and re-raised as `CheckResponseException`; then the
`len(...) == 0` emptiness check; then the `isinstance(..., list)` check; on
success the list of homework records in order. -/
def check_response (response : Py) : Except PyErr (List Py) :=
  match getItem response "homeworks" with
  | .error (.keyError k) =>
      .error (.checkResponseException
        ("Ошибка доступа по ключу homeworks: " ++ PyErr.str (.keyError k)))
  | .error e => .error e
  | .ok homeworks_list =>
      match pyLen homeworks_list with
      | .error e => .error e
      | .ok n =>
          if n = 0 then
            .error (.checkResponseException "За последнее время нет домашек")
          else
            match homeworks_list with
            | .list xs => .ok xs
            | _ => .error (.checkResponseException
                     "В ответе API домашки представлены не списком")

/-- The `HOMEWORK_VERDICTS` table of `homework.py`. -/
def HOMEWORK_VERDICTS : List (String × String) :=
  [("approved", "Работа проверена: ревьюеру всё понравилось. Ура!"),
   ("reviewing", "Работа взята на проверку ревьюером."),
   ("rejected", "Работа проверена: у ревьюера есть замечания.")]

/-- Python `homework_status in HOMEWORK_VERDICTS`: key membership in a dict
with string keys.  An unhashable value (list or dict) raises `TypeError`; other
values are hashable and simply fail the membership test. -/
def verdictsContain : Py → Except PyErr Bool
  | .str s => .ok ((HOMEWORK_VERDICTS.lookup s).isSome)
  | .list _ => .error (.typeError "unhashable type: list")
  | .dict _ => .error (.typeError "unhashable type: dict")
  | _ => .ok false

/-- `parse_status` of `homework.py`: checks membership of the
`homework_name` and `status` keys (raising `KeyError` resp. a plain
`Exception`), reads both values by subscription, checks the status against
`HOMEWORK_VERDICTS` (a plain `Exception` on an unknown status), and formats the
notification sentence. -/
def parse_status (homework : Py) : Except PyErr String :=
  match pyContains homework "homework_name" with
  | .error e => .error e
  | .ok hasName =>
    if !hasName then
      .error (.keyError "Отсутствует ключ \"homework_name\" в ответе API")
    else
      match pyContains homework "status" with
      | .error e => .error e
      | .ok hasStatus =>
        if !hasStatus then
          .error (.plainExc "Отсутствует ключ \"status\" в ответе API")
        else
          match getItem homework "homework_name" with
          | .error e => .error e
          | .ok homework_name =>
            match getItem homework "status" with
            | .error e => .error e
            | .ok homework_status =>
              match verdictsContain homework_status with
              | .error e => .error e
              | .ok isKnown =>
                if !isKnown then
                  .error (.plainExc
                    ("Неизвестный статус работы: " ++ pyStr homework_status))
                else
                  match homework_status with
                  | .str s =>
                      match HOMEWORK_VERDICTS.lookup s with
                      | some verdict =>
                          .ok ("Изменился статус проверки работы \""
                               ++ pyStr homework_name ++ "\". " ++ verdict)
                      | Option.none => .error (.keyError s)
                  | _ => .error (.typeError "unhashable type")

/-- Outcome of one attempt of the external channel's `bot.send_message`. -/
inductive ChannelOutcome where
  | delivered : ChannelOutcome
  | telegramFailure : ChannelOutcome
deriving DecidableEq, Repr

/-- What `bot.send_message` raises for a given channel outcome: nothing on
delivery, a `telegram.error.TelegramError` on a channel failure. -/
def bot_send_raises : ChannelOutcome → Option PyErr
  | .delivered => Option.none
  | .telegramFailure => some (.telegramError "Сбой отправки")

/-- The observable result of `send_message`: what (if anything) propagates to
the caller, and which log lines were written. -/
structure SendOutput where
  raised : Option PyErr
  infoLogged : Bool
  errorLogged : Bool
deriving DecidableEq, Repr

set_option linter.unusedVariables false in
/-- `send_message` of `homework.py`: attempts the channel send; on success
logs at info level; a raised `telegram.error.TelegramError` is caught and
logged at error level; any other exception would propagate. -/
def send_message (ch : ChannelOutcome) (message : String) : SendOutput :=
  match bot_send_raises ch with
  | Option.none => { raised := Option.none, infoLogged := true, errorLogged := false }
  | some e =>
      match e with
      | .telegramError _ =>
          { raised := Option.none, infoLogged := false, errorLogged := true }
      | _ => { raised := some e, infoLogged := false, errorLogged := false }

/-- The three environment-sourced credentials (`PRACTICUM_TOKEN`,
`TELEGRAM_TOKEN`, `CHAT_ID`), each possibly absent. -/
structure Credentials where
  PRACTICUM_TOKEN : Option String
  TELEGRAM_TOKEN : Option String
  TELEGRAM_CHAT_ID : Option String
deriving DecidableEq, Repr

/-- `check_tokens` of `homework.py`: `False` as soon as one of the three
credentials is `None`, `True` otherwise. -/
def check_tokens (c : Credentials) : Bool :=
  c.PRACTICUM_TOKEN.isSome && c.TELEGRAM_TOKEN.isSome && c.TELEGRAM_CHAT_ID.isSome

/-- The in-memory dedup state of the polling loop: `previous_status` (a Python
value, initially `None`) and `previous_error` (a string or `None`). -/
structure PollState where
  previous_status : Py
  previous_error : Option String
deriving Repr

/-- How `main` ends its startup section: `fatal e msg` is the
`MissingRequiredTokenException` raised after `logger.critical(msg)`;
`crash e` is an uncaught builtin exception before the loop; `loopEntered st`
means the `while True` loop is reached with initial state `st`. -/
inductive StartupResult where
  | fatal : PyErr → String → StartupResult
  | crash : PyErr → StartupResult
  | loopEntered : PollState → StartupResult
deriving Repr

/-- The expression `int(time.timedelta())` on line 139 of `homework.py`: the
`time` module has no attribute `timedelta` (the class lives in `datetime`), so
evaluating it raises `AttributeError` before `int` is ever applied. -/
def time_timedelta : Except PyErr Int :=
  .error (.attributeError "module time has no attribute timedelta")

/-- The startup section of `main` (lines 131—141): check the credentials and
raise `MissingRequiredTokenException` after a critical log if one is missing;
otherwise evaluate `current_timestamp = int(time.timedelta())` and initialise
`previous_status`/`previous_error` to `None` before entering the loop. -/
def mainStartup (c : Credentials) : StartupResult :=
  if check_tokens c = false then
    .fatal (.missingRequiredTokenException "Отсутствует необходимая переменная среды")
      "Отсутствует необходимая переменная среды"
  else
    match time_timedelta with
    | .error e => .crash e
    | .ok _ => .loopEntered { previous_status := Py.none, previous_error := Option.none }

/-- The observable result of one iteration of the `while True` loop of `main`:
the state afterwards, the texts passed to `send_message` (in order), the
exception escaping the loop if any, the exception caught by one of the two
`except` clauses if any, how many times `time.sleep(TELEGRAM_RETRY_TIME)` ran,
whether `logger.debug('Обновления статуса нет')` ran, and the arguments passed
to `parse_status`. -/
structure CycleResult where
  state : PollState
  sends : List String
  crashed : Option PyErr
  caughtError : Option PyErr
  sleeps : Nat
  debugLogged : Bool
  formatterCalls : List Py
deriving Repr

/-- The shared shape of both `except` handlers of the loop: compare the
caught exception's text with `previous_error`, and if it differs record it and
pass `sent` to `send_message`; then log and sleep. -/
def handleCaught (st : PollState) (e : PyErr) (sent : String) (fmts : List Py) :
    CycleResult :=
  if st.previous_error ≠ some e.str then
    { state := { st with previous_error := some e.str },
      sends := [sent], crashed := Option.none, caughtError := some e,
      sleeps := 1, debugLogged := false, formatterCalls := fmts }
  else
    { state := st, sends := [], crashed := Option.none, caughtError := some e,
      sleeps := 1, debugLogged := false, formatterCalls := fmts }

/-- One iteration of the `while True` loop of `main` (lines 143—171), given the
state at the top of the loop and the HTTP outcome of this cycle's fetch.

The first `try` covers only `get_api_answer` and its `except` clause matches
only `exceptions.IncorrectAPIResponseException`; any other exception escapes
`main` (`crashed`).  The second `try` covers `check_response`, the
`homeworks[0]` subscription, the `.get('status')` read, the comparison with
`previous_status`, and `parse_status`; its `except Exception` clause matches
every exception.  `send_message` never raises (see `send_message`), so the
channel outcome cannot alter the control flow and only the sent texts are
recorded. -/
def cycle (st : PollState) (o : HttpOutcome) : CycleResult :=
  match get_api_answer o with
  | .error e =>
      if e.isIncorrectAPI then
        handleCaught st e e.str []
      else
        { state := st, sends := [], crashed := some e, caughtError := Option.none,
          sleeps := 0, debugLogged := false, formatterCalls := [] }
  | .ok response =>
      match check_response response with
      | .error e => handleCaught st e ("Сбой в работе программы: " ++ e.str) []
      | .ok homeworks =>
          match homeworks.head? with
          | Option.none =>
              handleCaught st (.indexError "list index out of range")
                ("Сбой в работе программы: "
                  ++ PyErr.str (.indexError "list index out of range")) []
          | some hw0 =>
              match pyGet hw0 "status" with
              | .error e =>
                  handleCaught st e ("Сбой в работе программы: " ++ e.str) []
              | .ok hw_status =>
                  if !Py.beq hw_status st.previous_status then
                    let st' : PollState := { st with previous_status := hw_status }
                    match parse_status hw0 with
                    | .ok message =>
                        { state := st', sends := [message], crashed := Option.none,
                          caughtError := Option.none, sleeps := 1,
                          debugLogged := false, formatterCalls := [hw0] }
                    | .error e =>
                        handleCaught st' e ("Сбой в работе программы: " ++ e.str) [hw0]
                  else
                    { state := st, sends := [], crashed := Option.none,
                      caughtError := Option.none, sleeps := 1, debugLogged := true,
                      formatterCalls := [] }

/-- Whether a `check_response` outcome is the spec's `ShapeError`, i.e. a
raised `exceptions.CheckResponseException`. -/
def isShapeError : Except PyErr (List Py) → Bool
  | .error (.checkResponseException _) => true
  | _ => false

/-- Whether a `parse_status` outcome is the spec's `UnknownStatusError`, i.e.
the plain `Exception` whose message starts with the unknown-status text. -/
def isUnknownStatus : Except PyErr String → Bool
  | .error (.plainExc m) => m.startsWith "Неизвестный статус работы: "
  | _ => false

/-- The fresh loop state of `main`: `previous_status = None`,
`previous_error = None`. -/
def freshState : PollState :=
  { previous_status := Py.none, previous_error := Option.none }

/-- Observable behaviour of the shared `except`-handler shape: the state's
`previous_error` always ends up holding the caught exception's text, exactly
one send happens when the text differs from the stored one and none otherwise,
nothing escapes, and the caught exception is recorded. -/
theorem handleCaught_spec (st : PollState) (e : PyErr) (sent : String) (fmts : List Py) :
    (handleCaught st e sent fmts).state.previous_error = some e.str
    ∧ (handleCaught st e sent fmts).sends.length
        = (if st.previous_error = some e.str then 0 else 1)
    ∧ (handleCaught st e sent fmts).crashed = Option.none
    ∧ (handleCaught st e sent fmts).caughtError = some e
    ∧ (handleCaught st e sent fmts).state.previous_status = st.previous_status := by
  unfold handleCaught
  by_cases hp : st.previous_error = some e.str <;> simp [hp]

/-- Any cycle whose `except` clauses caught an exception `e` ends with
`previous_error = str e`, sends exactly one message when `str e` differs from
the `previous_error` at the top of the cycle and none otherwise, and lets
nothing escape the loop. -/
theorem caught_cycle_spec (st : PollState) (o : HttpOutcome) (e : PyErr)
    (h : (cycle st o).caughtError = some e) :
    (cycle st o).state.previous_error = some e.str
    ∧ (cycle st o).sends.length = (if st.previous_error = some e.str then 0 else 1)
    ∧ (cycle st o).crashed = Option.none := by
  have hstep : ∀ (stm : PollState) (e1 : PyErr) (sent : String) (fmts : List Py),
      stm.previous_error = st.previous_error →
      (handleCaught stm e1 sent fmts).caughtError = some e →
      (handleCaught stm e1 sent fmts).state.previous_error = some e.str
      ∧ (handleCaught stm e1 sent fmts).sends.length
          = (if st.previous_error = some e.str then 0 else 1)
      ∧ (handleCaught stm e1 sent fmts).crashed = Option.none := by
    intro stm e1 sent fmts hpe hce
    have hc := (handleCaught_spec stm e1 sent fmts).2.2.2.1
    rw [hc] at hce
    injection hce with he1
    subst he1
    refine ⟨(handleCaught_spec stm e1 sent fmts).1, ?_,
      (handleCaught_spec stm e1 sent fmts).2.2.1⟩
    rw [(handleCaught_spec stm e1 sent fmts).2.1, hpe]
  unfold cycle at h ⊢
  cases hga : get_api_answer o with
  | error e1 =>
    simp only [hga] at h ⊢
    by_cases hi : e1.isIncorrectAPI = true
    · simp only [hi, if_pos] at h ⊢
      exact hstep st e1 e1.str [] rfl h
    · simp only [hi] at h ⊢
      simp at h
  | ok resp =>
    simp only [hga] at h ⊢
    cases hcr : check_response resp with
    | error e1 =>
      simp only [hcr] at h ⊢
      exact hstep st e1 _ [] rfl h
    | ok hws =>
      simp only [hcr] at h ⊢
      cases hh : hws.head? with
      | none =>
        simp only [hh] at h ⊢
        exact hstep st _ _ [] rfl h
      | some hw0 =>
        simp only [hh] at h ⊢
        cases hpg : pyGet hw0 "status" with
        | error e1 =>
          simp only [hpg] at h ⊢
          exact hstep st e1 _ [] rfl h
        | ok s =>
          simp only [hpg] at h ⊢
          cases hb : Py.beq s st.previous_status with
          | false =>
            simp only [hb, Bool.not_false, if_pos] at h ⊢
            cases hp : parse_status hw0 with
            | ok msg => simp only [hp] at h; simp at h
            | error pe =>
              simp only [hp] at h ⊢
              exact hstep { st with previous_status := s } pe _ [hw0] rfl h
          | true =>
            simp only [hb, Bool.not_true] at h ⊢
            simp at h

/-- C1: the claim that every recoverable error — in particular a transport
failure raised by the fetch — is caught at the poll-loop level, logged,
followed by the fixed sleep and a next cycle, fails on the code: the fetch
`except` clause matches only `exceptions.IncorrectAPIResponseException`, while
`get_api_answer` re-raises a plain `Exception`, so on the very first transport
failure the loop sends no notification, does not sleep, and the exception
escapes `main` — the process exits instead of starting a second cycle. -/
theorem C1_transport_failure_escapes_loop :
    (cycle freshState (HttpOutcome.sendFailure "boom")).crashed
        = some (PyErr.plainExc "Ошибка при запросе к основному API: boom")
    ∧ (cycle freshState (HttpOutcome.sendFailure "boom")).sends = []
    ∧ (cycle freshState (HttpOutcome.sendFailure "boom")).sleeps = 0 :=
  ⟨rfl, rfl, rfl⟩

/-- C2: the claim that with all three credentials present the poll loop starts
and runs indefinitely fails on the code: startup evaluates
`current_timestamp = int(time.timedelta())`, and the `time` module has no
`timedelta` attribute, so `main` raises `AttributeError` and terminates before
the loop is ever entered. -/
theorem C2_full_credentials_startup_crashes :
    mainStartup
        { PRACTICUM_TOKEN := some "practicum", TELEGRAM_TOKEN := some "telegram",
          TELEGRAM_CHAT_ID := some "chat" }
      = StartupResult.crash (PyErr.attributeError "module time has no attribute timedelta") :=
  rfl

/-- C3 counterexample: on a payload that is not a keyed mapping (here the JSON
array `[]`), `check_response` does not fail with `ShapeError`
(`CheckResponseException`): subscripting a list with a string key raises
`TypeError`, which the `except KeyError` clause does not match. -/
theorem C3_counterexample :
    check_response (Py.list [])
        = Except.error (PyErr.typeError "object is not subscriptable with str key")
    ∧ isShapeError (check_response (Py.list [])) = false :=
  ⟨rfl, rfl⟩

/-- C3 (amended): on a keyed mapping, `check_response` fails with `ShapeError`
(`CheckResponseException`) when the `homeworks` key is absent, when the
`homeworks` value is the empty list, and — the original's "not a sequence"
case — whenever that value is a sized non-list (a string or a mapping: empty
ones hit the emptiness check, non-empty ones the `isinstance` check); an
unsized `homeworks` value (null, boolean or number) instead raises an uncaught
`TypeError` from `len()`, as does a payload that is not a keyed mapping (from
the subscription); otherwise — `homeworks` present as a non-empty list — it
returns that full record list in the order received, and every successful
return is exactly the stored list, never a partial result. -/
theorem C3_check_response_amended (fields : List (String × Py)) :
    (fields.lookup "homeworks" = Option.none →
        check_response (Py.dict fields)
          = Except.error (PyErr.checkResponseException
              "Ошибка доступа по ключу homeworks: 'homeworks'"))
    ∧ (fields.lookup "homeworks" = some (Py.list []) →
        check_response (Py.dict fields)
          = Except.error (PyErr.checkResponseException "За последнее время нет домашек"))
    ∧ (∀ xs : List Py, fields.lookup "homeworks" = some (Py.list xs) → xs ≠ [] →
        check_response (Py.dict fields) = Except.ok xs)
    ∧ (∀ s : String, fields.lookup "homeworks" = some (Py.str s) →
        check_response (Py.dict fields)
          = Except.error (PyErr.checkResponseException
              (if s.length = 0 then "За последнее время нет домашек"
               else "В ответе API домашки представлены не списком")))
    ∧ (∀ fs2 : List (String × Py), fields.lookup "homeworks" = some (Py.dict fs2) →
        check_response (Py.dict fields)
          = Except.error (PyErr.checkResponseException
              (if fs2.length = 0 then "За последнее время нет домашек"
               else "В ответе API домашки представлены не списком")))
    ∧ (fields.lookup "homeworks" = some Py.none →
        check_response (Py.dict fields)
          = Except.error (PyErr.typeError "object has no len"))
    ∧ (∀ b : Bool, fields.lookup "homeworks" = some (Py.bool b) →
        check_response (Py.dict fields)
          = Except.error (PyErr.typeError "object has no len"))
    ∧ (∀ n : Int, fields.lookup "homeworks" = some (Py.int n) →
        check_response (Py.dict fields)
          = Except.error (PyErr.typeError "object has no len"))
    ∧ (∀ p : Py, (∀ fs, p ≠ Py.dict fs) →
        check_response p
          = Except.error (PyErr.typeError "object is not subscriptable with str key"))
    ∧ (∀ xs : List Py, check_response (Py.dict fields) = Except.ok xs →
        fields.lookup "homeworks" = some (Py.list xs) ∧ xs ≠ []) := by
  refine ⟨?_, ?_, ?_, ?_, ?_, ?_, ?_, ?_, ?_, ?_⟩
  · intro h
    simp [check_response, getItem, h, PyErr.str]
  · intro h
    simp [check_response, getItem, h, pyLen]
  · intro xs h hne
    simp [check_response, getItem, h, pyLen, List.length_eq_zero, hne]
  · intro s h
    simp only [check_response, getItem, h, pyLen]
    by_cases hs : s.length = 0 <;> simp [hs]
  · intro fs2 h
    simp only [check_response, getItem, h, pyLen]
    by_cases hs : fs2.length = 0 <;> simp [hs]
  · intro h
    simp [check_response, getItem, h, pyLen]
  · intro b h
    simp [check_response, getItem, h, pyLen]
  · intro n h
    simp [check_response, getItem, h, pyLen]
  · intro p hp
    cases p with
    | dict fs => exact absurd rfl (hp fs)
    | none => simp [check_response, getItem]
    | bool b => simp [check_response, getItem]
    | int n => simp [check_response, getItem]
    | str s => simp [check_response, getItem]
    | list xs => simp [check_response, getItem]
  · intro xs h
    cases hl : fields.lookup "homeworks" with
    | none => simp [check_response, getItem, hl] at h
    | some v =>
      cases v with
      | none => simp [check_response, getItem, hl, pyLen] at h
      | bool b => simp [check_response, getItem, hl, pyLen] at h
      | int n => simp [check_response, getItem, hl, pyLen] at h
      | str s =>
        simp only [check_response, getItem, hl, pyLen] at h
        by_cases hz : s.length = 0 <;> simp [hz] at h
      | dict fs2 =>
        simp only [check_response, getItem, hl, pyLen] at h
        by_cases hz : fs2.length = 0 <;> simp [hz] at h
      | list xs2 =>
        simp only [check_response, getItem, hl, pyLen] at h
        by_cases hz : xs2.length = 0
        · simp [hz] at h
        · simp only [hz, if_false, Except.ok.injEq] at h
          subst h
          exact ⟨rfl, by simpa [List.length_eq_zero] using hz⟩

/-- C3 witness: a concrete payload with one homework record is accepted and
returned whole. -/
theorem C3_check_response_amended_witness :
    check_response (Py.dict [("homeworks", Py.list [Py.str "hw"])])
      = Except.ok [Py.str "hw"] :=
  (C3_check_response_amended [("homeworks", Py.list [Py.str "hw"])]).2.2.1
    [Py.str "hw"] rfl (by simp)

/-- C7: `send_message` never raises to its caller — on a channel failure the
raised `telegram.error.TelegramError` is caught, the failure is logged at
error level, and the function returns normally. -/
theorem C7_send_message_never_raises (ch : ChannelOutcome) (message : String) :
    (send_message ch message).raised = Option.none
    ∧ (ch = ChannelOutcome.telegramFailure →
        (send_message ch message).errorLogged = true) := by
  cases ch <;> simp [send_message, bot_send_raises]

/-- C7 witness: on a concrete failing send, nothing propagates and the error
log is written. -/
theorem C7_send_message_never_raises_witness :
    (send_message ChannelOutcome.telegramFailure "hello").raised = Option.none
    ∧ (send_message ChannelOutcome.telegramFailure "hello").errorLogged = true :=
  ⟨(C7_send_message_never_raises ChannelOutcome.telegramFailure "hello").1,
   (C7_send_message_never_raises ChannelOutcome.telegramFailure "hello").2 rfl⟩

/-- C8: if any of the three credentials is absent, `main` fails immediately:
`check_tokens` returns `False`, the fixed message is logged at critical
severity and raised as `MissingRequiredTokenException`, and the result is not
`loopEntered` — the loop never starts and no fetch is attempted. -/
theorem C8_missing_credential_fatal (c : Credentials)
    (h : c.PRACTICUM_TOKEN = Option.none ∨ c.TELEGRAM_TOKEN = Option.none
         ∨ c.TELEGRAM_CHAT_ID = Option.none) :
    mainStartup c
      = StartupResult.fatal
          (PyErr.missingRequiredTokenException "Отсутствует необходимая переменная среды")
          "Отсутствует необходимая переменная среды" := by
  unfold mainStartup
  rcases h with h | h | h <;> simp [check_tokens, h]

/-- C8 witness: with the API token absent and the other credentials present,
startup is fatal. -/
theorem C8_missing_credential_fatal_witness :
    mainStartup
        { PRACTICUM_TOKEN := Option.none, TELEGRAM_TOKEN := some "telegram",
          TELEGRAM_CHAT_ID := some "chat" }
      = StartupResult.fatal
          (PyErr.missingRequiredTokenException "Отсутствует необходимая переменная среды")
          "Отсутствует необходимая переменная среды" :=
  C8_missing_credential_fatal _ (Or.inl rfl)

/-- C6: across a pair of consecutive cycles that both end with a caught
failure, starting from a state whose stored error text differs from the first
failure's text, exactly one notification is passed to `send_message` when the
two failures carry the same text, and exactly two when the texts differ — at
most one notification per distinct consecutive error message. -/
theorem C6_error_dedup (st : PollState) (o1 o2 : HttpOutcome) (e1 e2 : PyErr)
    (h1 : (cycle st o1).caughtError = some e1)
    (h2 : (cycle (cycle st o1).state o2).caughtError = some e2)
    (hfresh : st.previous_error ≠ some e1.str) :
    (cycle st o1).sends.length + (cycle (cycle st o1).state o2).sends.length
      = (if e1.str = e2.str then 1 else 2) := by
  obtain ⟨hpe1, hlen1, -⟩ := caught_cycle_spec st o1 e1 h1
  obtain ⟨-, hlen2, -⟩ := caught_cycle_spec (cycle st o1).state o2 e2 h2
  rw [hlen1, hlen2, hpe1, if_neg hfresh]
  by_cases heq : e1.str = e2.str <;> simp [heq]

/-- C6 witness: the same malformed payload (a mapping without `homeworks`) on
two consecutive cycles yields the identical `CheckResponseException` text twice
and a single send across the pair. -/
theorem C6_error_dedup_witness :
    (cycle freshState (HttpOutcome.response 200 (some (Py.dict [])))).sends.length
      + (cycle (cycle freshState (HttpOutcome.response 200 (some (Py.dict [])))).state
          (HttpOutcome.response 200 (some (Py.dict [])))).sends.length
      = (if (PyErr.checkResponseException
              "Ошибка доступа по ключу homeworks: 'homeworks'").str
            = (PyErr.checkResponseException
              "Ошибка доступа по ключу homeworks: 'homeworks'").str
          then 1 else 2) :=
  C6_error_dedup freshState (HttpOutcome.response 200 (some (Py.dict [])))
    (HttpOutcome.response 200 (some (Py.dict [])))
    (PyErr.checkResponseException "Ошибка доступа по ключу homeworks: 'homeworks'")
    (PyErr.checkResponseException "Ошибка доступа по ключу homeworks: 'homeworks'")
    rfl rfl (by simp [freshState])

/-- C4 counterexample: a record whose `status` value is not one of the three
recognised statuses — here the JSON array `[]` — does not fail with
`UnknownStatusError`: membership testing an unhashable value against the
`HOMEWORK_VERDICTS` dict raises `TypeError` first. -/
theorem C4_counterexample :
    parse_status (Py.dict [("homework_name", Py.str "hw"), ("status", Py.list [])])
        = Except.error (PyErr.typeError "unhashable type: list")
    ∧ isUnknownStatus
        (parse_status (Py.dict [("homework_name", Py.str "hw"), ("status", Py.list [])]))
        = false :=
  ⟨rfl, rfl⟩

/-- C4 (amended): for a record carrying a `homework_name` string and a
`status` value, `parse_status` returns the formatted sentence — which contains
the submission name and the exact verdict text from `HOMEWORK_VERDICTS` — when
the status is a recognised key; it fails with `UnknownStatusError` for every
other hashable status value (any other string, and `None`, numbers and
booleans); an unhashable status value — a list or a mapping — instead raises
`TypeError`, because the membership test against the verdict dict hashes the
value first. -/
theorem C4_parse_status_amended (fields : List (String × Py)) (name : String)
    (hn : fields.lookup "homework_name" = some (Py.str name)) :
    (∀ status verdict : String,
        fields.lookup "status" = some (Py.str status) →
        HOMEWORK_VERDICTS.lookup status = some verdict →
        parse_status (Py.dict fields)
          = Except.ok ("Изменился статус проверки работы \"" ++ name ++ "\". " ++ verdict)
        ∧ ∃ u v w : String,
            "Изменился статус проверки работы \"" ++ name ++ "\". " ++ verdict
              = u ++ name ++ v ++ verdict ++ w)
    ∧ (∀ status : String,
        fields.lookup "status" = some (Py.str status) →
        HOMEWORK_VERDICTS.lookup status = Option.none →
        parse_status (Py.dict fields)
          = Except.error (PyErr.plainExc ("Неизвестный статус работы: " ++ status)))
    ∧ (fields.lookup "status" = some Py.none →
        parse_status (Py.dict fields)
          = Except.error (PyErr.plainExc "Неизвестный статус работы: None"))
    ∧ (∀ n : Int, fields.lookup "status" = some (Py.int n) →
        parse_status (Py.dict fields)
          = Except.error (PyErr.plainExc ("Неизвестный статус работы: " ++ toString n)))
    ∧ (∀ b : Bool, fields.lookup "status" = some (Py.bool b) →
        parse_status (Py.dict fields)
          = Except.error (PyErr.plainExc
              ("Неизвестный статус работы: " ++ pyStr (Py.bool b))))
    ∧ (∀ xs : List Py, fields.lookup "status" = some (Py.list xs) →
        parse_status (Py.dict fields)
          = Except.error (PyErr.typeError "unhashable type: list"))
    ∧ (∀ fs2 : List (String × Py), fields.lookup "status" = some (Py.dict fs2) →
        parse_status (Py.dict fields)
          = Except.error (PyErr.typeError "unhashable type: dict")) := by
  refine ⟨?_, ?_, ?_, ?_, ?_, ?_, ?_⟩
  · intro status verdict hs hv
    constructor
    · simp [parse_status, pyContains, getItem, verdictsContain, hn, hs, hv, pyStr]
    · exact ⟨"Изменился статус проверки работы \"", "\". ", "", by simp⟩
  · intro status hs hv
    simp [parse_status, pyContains, getItem, verdictsContain, hn, hs, hv, pyStr]
  · intro hs
    simp [parse_status, pyContains, getItem, verdictsContain, hn, hs, pyStr]
  · intro n hs
    simp [parse_status, pyContains, getItem, verdictsContain, hn, hs, pyStr]
  · intro b hs
    simp [parse_status, pyContains, getItem, verdictsContain, hn, hs]
  · intro xs hs
    simp [parse_status, pyContains, getItem, verdictsContain, hn, hs]
  · intro fs2 hs
    simp [parse_status, pyContains, getItem, verdictsContain, hn, hs]

/-- C4 witness: a concrete record with status `reviewing` formats to the exact
sentence embedding the name and the fixed verdict text. -/
theorem C4_parse_status_amended_witness :
    parse_status (Py.dict [("homework_name", Py.str "hw1"), ("status", Py.str "reviewing")])
      = Except.ok ("Изменился статус проверки работы \"" ++ "hw1" ++ "\". "
                    ++ "Работа взята на проверку ревьюером.")
    ∧ ∃ u v w : String,
        "Изменился статус проверки работы \"" ++ "hw1" ++ "\". "
            ++ "Работа взята на проверку ревьюером."
          = u ++ "hw1" ++ v ++ "Работа взята на проверку ревьюером." ++ w :=
  (C4_parse_status_amended
      [("homework_name", Py.str "hw1"), ("status", Py.str "reviewing")] "hw1" rfl).1
    "reviewing" "Работа взята на проверку ревьюером." rfl rfl

/-- C5: running a cycle again with the same successful payload — so that the
first submission's status now equals `previous_status` — passes nothing to
`send_message`, leaves the state untouched, and only logs at debug level:
repeats of the same consecutive status value never re-notify. -/
theorem C5_unchanged_status_never_renotifies (st : PollState) (o : HttpOutcome)
    (resp : Py) (hws : List Py) (hw0 s : Py)
    (hfetch : get_api_answer o = Except.ok resp)
    (hcheck : check_response resp = Except.ok hws)
    (hhead : hws.head? = some hw0)
    (hstat : pyGet hw0 "status" = Except.ok s) :
    (cycle (cycle st o).state o).sends = []
    ∧ (cycle (cycle st o).state o).state = (cycle st o).state
    ∧ (cycle (cycle st o).state o).debugLogged = true := by
  have hkey : Py.beq s ((cycle st o).state).previous_status = true := by
    unfold cycle
    simp only [hfetch, hcheck, hhead, hstat]
    cases hb : Py.beq s st.previous_status with
    | true => simpa using hb
    | false =>
      simp only [hb, Bool.not_false, if_pos]
      cases hp : parse_status hw0 with
      | ok msg => simpa using Py.beq_refl s
      | error pe =>
        unfold handleCaught
        by_cases hpe : ({ st with previous_status := s } : PollState).previous_error
            ≠ some pe.str
        · simpa [hpe] using Py.beq_refl s
        · simpa [hpe] using Py.beq_refl s
  generalize (cycle st o).state = st1 at hkey ⊢
  unfold cycle
  simp [hfetch, hcheck, hhead, hstat, hkey]

/-- C5 witness: a concrete payload processed from the fresh state and then
re-processed from the resulting state produces no second notification. -/
theorem C5_unchanged_status_never_renotifies_witness :
    (cycle (cycle freshState
        (HttpOutcome.response 200 (some (Py.dict [("homeworks",
          Py.list [Py.dict [("homework_name", Py.str "hw1"),
                            ("status", Py.str "reviewing")]])])))).state
      (HttpOutcome.response 200 (some (Py.dict [("homeworks",
          Py.list [Py.dict [("homework_name", Py.str "hw1"),
                            ("status", Py.str "reviewing")]])])))).sends = []
    ∧ (cycle (cycle freshState
        (HttpOutcome.response 200 (some (Py.dict [("homeworks",
          Py.list [Py.dict [("homework_name", Py.str "hw1"),
                            ("status", Py.str "reviewing")]])])))).state
      (HttpOutcome.response 200 (some (Py.dict [("homeworks",
          Py.list [Py.dict [("homework_name", Py.str "hw1"),
                            ("status", Py.str "reviewing")]])])))).state
      = (cycle freshState
        (HttpOutcome.response 200 (some (Py.dict [("homeworks",
          Py.list [Py.dict [("homework_name", Py.str "hw1"),
                            ("status", Py.str "reviewing")]])])))).state
    ∧ (cycle (cycle freshState
        (HttpOutcome.response 200 (some (Py.dict [("homeworks",
          Py.list [Py.dict [("homework_name", Py.str "hw1"),
                            ("status", Py.str "reviewing")]])])))).state
      (HttpOutcome.response 200 (some (Py.dict [("homeworks",
          Py.list [Py.dict [("homework_name", Py.str "hw1"),
                            ("status", Py.str "reviewing")]])])))).debugLogged
      = true :=
  C5_unchanged_status_never_renotifies freshState _ _ _ _ _ rfl rfl rfl rfl

/-- C9 counterexample: a cycle in which formatting fails still mutates
`last_seen_status`.  Starting from the fresh state, a payload whose first
record carries the unknown status `weird` makes `parse_status` raise, yet
after the cycle `previous_status` is `"weird"`, no longer its value (`None`)
at the start of the cycle. -/
theorem C9_counterexample :
    parse_status (Py.dict [("homework_name", Py.str "hw"), ("status", Py.str "weird")])
        = Except.error (PyErr.plainExc "Неизвестный статус работы: weird")
    ∧ (cycle freshState (HttpOutcome.response 200 (some (Py.dict [("homeworks",
          Py.list [Py.dict [("homework_name", Py.str "hw"),
                            ("status", Py.str "weird")]])])))).caughtError
        = some (PyErr.plainExc "Неизвестный статус работы: weird")
    ∧ (cycle freshState (HttpOutcome.response 200 (some (Py.dict [("homeworks",
          Py.list [Py.dict [("homework_name", Py.str "hw"),
                            ("status", Py.str "weird")]])])))).state.previous_status
        = Py.str "weird" :=
  ⟨rfl, rfl, rfl⟩

/-- C9 (amended): `previous_status` is assigned before the formatter runs — in
any cycle that observes a first-submission status differing from
`previous_status` and whose formatting step then fails, the cycle ends with
`previous_status` already set to the newly observed status (it is not rolled
back), and with the formatting exception caught by the loop. -/
theorem C9_status_updated_before_formatting (st : PollState) (o : HttpOutcome)
    (resp : Py) (hws : List Py) (hw0 s : Py) (pe : PyErr)
    (hfetch : get_api_answer o = Except.ok resp)
    (hcheck : check_response resp = Except.ok hws)
    (hhead : hws.head? = some hw0)
    (hstat : pyGet hw0 "status" = Except.ok s)
    (hdiff : Py.beq s st.previous_status = false)
    (hfail : parse_status hw0 = Except.error pe) :
    (cycle st o).state.previous_status = s
    ∧ (cycle st o).caughtError = some pe := by
  unfold cycle
  simp only [hfetch, hcheck, hhead, hstat, hdiff, Bool.not_false, if_pos, hfail]
  unfold handleCaught
  by_cases hpe : ({ st with previous_status := s } : PollState).previous_error
      ≠ some pe.str <;> simp [hpe]

/-- C9 witness: the amended statement evaluated on the concrete unknown-status
payload of the counterexample scenario. -/
theorem C9_status_updated_before_formatting_witness :
    (cycle freshState (HttpOutcome.response 200 (some (Py.dict [("homeworks",
        Py.list [Py.dict [("homework_name", Py.str "hw"),
                          ("status", Py.str "weird")]])])))).state.previous_status
      = Py.str "weird"
    ∧ (cycle freshState (HttpOutcome.response 200 (some (Py.dict [("homeworks",
        Py.list [Py.dict [("homework_name", Py.str "hw"),
                          ("status", Py.str "weird")]])])))).caughtError
      = some (PyErr.plainExc "Неизвестный статус работы: weird") :=
  C9_status_updated_before_formatting freshState _ _ _ _ _ _ rfl rfl rfl rfl rfl rfl

/-- C10: when the first submission record is a mapping without a `status`
field, `.get('status')` yields `None`; with `previous_status` also `None`
(as on the first cycle) the comparison finds no change, so the cycle ends with
only the debug log: no send, nothing raised, nothing caught, the state
untouched, and `parse_status` never invoked. -/
theorem C10_missing_status_read_nonstrictly (st : PollState) (o : HttpOutcome)
    (resp : Py) (hws : List Py) (fs : List (String × Py))
    (hfetch : get_api_answer o = Except.ok resp)
    (hcheck : check_response resp = Except.ok hws)
    (hhead : hws.head? = some (Py.dict fs))
    (hnostatus : fs.lookup "status" = Option.none)
    (hprev : st.previous_status = Py.none) :
    cycle st o
      = { state := st, sends := [], crashed := Option.none,
          caughtError := Option.none, sleeps := 1, debugLogged := true,
          formatterCalls := [] } := by
  unfold cycle
  simp only [hfetch, hcheck, hhead, pyGet, hnostatus, Option.getD, hprev]
  simp [Py.beq]

/-- C10 witness: a concrete first cycle over a payload whose only record lacks
`status` completes with the debug log alone. -/
theorem C10_missing_status_read_nonstrictly_witness :
    cycle freshState (HttpOutcome.response 200 (some (Py.dict [("homeworks",
        Py.list [Py.dict [("homework_name", Py.str "hw")]])])))
      = { state := freshState, sends := [], crashed := Option.none,
          caughtError := Option.none, sleeps := 1, debugLogged := true,
          formatterCalls := [] } :=
  C10_missing_status_read_nonstrictly freshState _ _ _
    [("homework_name", Py.str "hw")] rfl rfl rfl rfl rfl

end HomeworkBot
